import Mathlib

/-!
Verification development for python-eigrp (src/dualfsm.py, src/eigrp.py).

The DUAL finite state machine of dualfsm.py is embedded shallowly: the
per-state handler methods become Lean functions over an explicit
`TopologyEntry` state, threaded through a small state-plus-exception monad
`PyM` that mirrors Python's mutation and exception behaviour.  Python
runtime errors that the source provably raises (references to names that
are never defined in the module, attribute lookups that cannot succeed,
`list.remove` on an absent element) are modelled as explicit `PyErr`
values raised at exactly the corresponding program point.

The topology table itself (`TopologyEntry`, `NeighborRecord`, `Metric`,
`get_feasible_successor`, `all_replies_received`) is referenced throughout
dualfsm.py but its definition is not part of src/; those definitions are
modelled from the specification and carry a doc comment saying so.
-/

namespace PyEigrp

/-- Python runtime errors raised by the embedded code. -/
inductive PyErr where
  | nameError (n : String)
  | attributeError (n : String)
  | keyError
  | valueError (msg : String)
  | fysomError
  deriving DecidableEq, Repr

/-- Modelled from the spec: the six metric weighting coefficients K1..K6
(spec section 6: "six bounded integers (each 0-255, at least one non-zero)").
The Metric class is not part of src/. -/
structure KValues where
  k1 : Nat
  k2 : Nat
  k3 : Nat
  k4 : Nat
  k5 : Nat
  k6 : Nat
  deriving DecidableEq, Repr

/-- Modelled from the spec: the reserved "infinite" delay sentinel
(spec section 3: "`reachable()` is true unless delay carries the reserved
infinite sentinel"). -/
def DELAY_INF : Nat := 0xFFFFFFFF

/-- Modelled from the spec: the composite route-cost vector
(spec section 3: "vector {bandwidth, delay, reliability, load, mtu, hopcount}").
The Metric class is referenced by dualfsm.py but not defined in src/. -/
structure Metric where
  bandwidth : Nat
  delay : Nat
  reliability : Nat
  load : Nat
  mtu : Nat
  hopcount : Nat
  deriving DecidableEq, Repr

/-- Modelled from the spec: `reachable()` is true unless delay carries the
reserved "infinite" sentinel. -/
def Metric.reachable (m : Metric) : Bool :=
  m.delay != DELAY_INF

/-- Modelled from the spec: `scalar(k1..k6)`, "classic EIGRP formula: a
bandwidth term scaled by k1 and k2/load, plus a delay term scaled by k3,
the whole scaled by k5/(reliability+k4) when k5 is nonzero" (spec section 3). -/
def Metric.scalar (m : Metric) (K : KValues) : Nat :=
  let base := K.k1 * m.bandwidth + K.k2 * m.bandwidth / (256 - m.load)
              + K.k3 * m.delay
  if K.k5 != 0 then base * K.k5 / (m.reliability + K.k4) else base

/-- Modelled from the spec: a NeighborRecord "keyed by (Destination,
neighbor-id): reported_distance: Metric; ...; awaiting_reply: bool"
(spec section 3).  In dualfsm.py the awaiting flag is the membership of
this destination's prefix in the neighbor object's `waiting_for_reply`
list; per single destination that is one boolean. -/
structure NeighborRecord where
  nid : Nat
  reported_distance : Metric
  awaiting_reply : Bool
  deriving DecidableEq, Repr

/-- Modelled from the spec: computed_distance is "derived from
reported_distance via the current K-values" (spec section 3). -/
def NeighborRecord.computed_distance (n : NeighborRecord) (K : KValues) : Nat :=
  n.reported_distance.scalar K

/-- The five DUAL states of dualfsm.py ('Passive', 'Active0'..'Active3',
DualFsm.DUAL_EVENTS and the fysom state strings). -/
inductive FsmState where
  | Passive
  | Active0
  | Active1
  | Active2
  | Active3
  deriving DecidableEq, Repr

/-- The input-event names IE1..IE16 of DualFsm.DUAL_EVENTS (dualfsm.py
lines 24-49). -/
inductive IE where
  | IE1 | IE2 | IE3 | IE4 | IE5 | IE6 | IE7 | IE8
  | IE9 | IE10 | IE11 | IE12 | IE13 | IE14 | IE15 | IE16
  deriving DecidableEq, Repr

/-- Transcription of DualFsm.DUAL_EVENTS (dualfsm.py lines 24-49):
each row is (event name, src state, dst state), in source order. -/
def DUAL_EVENTS : List (IE × FsmState × FsmState) :=
  [ (.IE1,  .Passive, .Passive),
    (.IE2,  .Passive, .Passive),
    (.IE3,  .Passive, .Active3),
    (.IE4,  .Passive, .Active1),
    (.IE5,  .Active0, .Active2),
    (.IE6,  .Active0, .Active0),
    (.IE7,  .Active0, .Active0),
    (.IE8,  .Active0, .Active0),
    (.IE6,  .Active1, .Active1),
    (.IE7,  .Active1, .Active1),
    (.IE8,  .Active1, .Active1),
    (.IE6,  .Active2, .Active2),
    (.IE7,  .Active2, .Active2),
    (.IE8,  .Active2, .Active2),
    (.IE6,  .Active3, .Active3),
    (.IE7,  .Active3, .Active3),
    (.IE8,  .Active3, .Active3),
    (.IE9,  .Active1, .Active0),
    (.IE10, .Active3, .Active2),
    (.IE11, .Active0, .Active1),
    (.IE12, .Active2, .Active3),
    (.IE13, .Active3, .Passive),
    (.IE14, .Active0, .Passive),
    (.IE15, .Active1, .Passive),
    (.IE16, .Active2, .Passive) ]

/-- The fysom machine built from DUAL_EVENTS: firing event `e` in state `s`
moves to the unique listed destination, and is invalid (fysom raises an
error, no transition occurs) when no row matches. -/
def dualTransition (s : FsmState) (e : IE) : Option FsmState :=
  ((DUAL_EVENTS.filter (fun r => r.1 == e && r.2.1 == s)).head?).map (fun r => r.2.2)

/-- The initial fysom state: DualFsm.__init__ passes 'Passive' as
`initial` and sets `self._state = self._states['passive']`
(dualfsm.py lines 59-68). -/
def DualFsm.initial : FsmState := FsmState.Passive

/-- The transition table exactly as claim C3 states it, written as a
function: IE1 and IE2 keep Passive; IE3: Passive to Active3; IE4: Passive
to Active1; IE5: Active0 to Active2; IE6, IE7, IE8 are self-loops on each
of Active0..Active3; IE9: Active1 to Active0; IE10: Active3 to Active2;
IE11: Active0 to Active1; IE12: Active2 to Active3; IE13: Active3 to
Passive; IE14: Active0 to Passive; IE15: Active1 to Passive; IE16:
Active2 to Passive; nothing else. -/
def claimedTransition : FsmState → IE → Option FsmState
  | .Passive, .IE1  => some .Passive
  | .Passive, .IE2  => some .Passive
  | .Passive, .IE3  => some .Active3
  | .Passive, .IE4  => some .Active1
  | .Active0, .IE5  => some .Active2
  | .Active0, .IE6  => some .Active0
  | .Active0, .IE7  => some .Active0
  | .Active0, .IE8  => some .Active0
  | .Active1, .IE6  => some .Active1
  | .Active1, .IE7  => some .Active1
  | .Active1, .IE8  => some .Active1
  | .Active2, .IE6  => some .Active2
  | .Active2, .IE7  => some .Active2
  | .Active2, .IE8  => some .Active2
  | .Active3, .IE6  => some .Active3
  | .Active3, .IE7  => some .Active3
  | .Active3, .IE8  => some .Active3
  | .Active1, .IE9  => some .Active0
  | .Active3, .IE10 => some .Active2
  | .Active0, .IE11 => some .Active1
  | .Active2, .IE12 => some .Active3
  | .Active3, .IE13 => some .Passive
  | .Active0, .IE14 => some .Passive
  | .Active1, .IE15 => some .Passive
  | .Active2, .IE16 => some .Passive
  | _, _ => none

/-- Modelled from the spec: the per-destination topology entry
(spec section 3): "neighbors ...; feasible_distance: scalar ...;
successor: optional neighbor-id (sentinel NO_SUCCESSOR when unreachable);
reply_wait_set ...; state: current DUAL state".  The class is referenced
by dualfsm.py (t_entry) but not defined in src/.  `successor = none`
is the NO_SUCCESSOR sentinel.  dualfsm.py keeps the DUAL state inside
`t_entry.fsm` (a DualFsm whose fysom callbacks mirror the state); here it
is the `state` field, and firing an input event updates it via
`dualTransition`. -/
structure TopologyEntry where
  neighbors : List NeighborRecord
  feasible_distance : Nat
  successor : Option Nat
  state : FsmState
  deriving DecidableEq, Repr

/-- The set of neighbors still owing a reply (spec section 3:
"reply_wait_set: set of neighbor-id still owing a reply"); in dualfsm.py
this is distributed over the neighbors' `waiting_for_reply` lists. -/
def TopologyEntry.reply_wait_set (t : TopologyEntry) : List Nat :=
  (t.neighbors.filter (fun n => n.awaiting_reply)).map (fun n => n.nid)

/-- Embeds `t_entry.get_neighbor(neighbor)`: the record for a neighbor
id, if any (a Python KeyError, at the call sites that do not catch it, is
modelled where the lookup is used). -/
def TopologyEntry.get_neighbor (t : TopologyEntry) (nid : Nat) : Option NeighborRecord :=
  t.neighbors.find? (fun n => n.nid == nid)

/-- Modelled from the spec: `all_replies_received()` is "true iff
reply_wait_set is empty" (spec section 4.2); not defined in src/. -/
def TopologyEntry.all_replies_received (t : TopologyEntry) : Bool :=
  t.neighbors.all (fun n => !n.awaiting_reply)

/-- Leftmost element minimising `f`, or none on the empty list (helper for
the minimum-computed-distance selection of spec section 4.2). -/
def argminBy (f : NeighborRecord → Nat) : List NeighborRecord → Option NeighborRecord
  | [] => none
  | n :: rest =>
    match argminBy f rest with
    | none => some n
    | some b => if f n ≤ f b then some n else some b

/-- Modelled from the spec: `get_feasible_successor()` is called at
dualfsm.py lines 178, 250, 389, 506 but TopologyEntry is not defined in
src/.  Spec section 4.2: "returns the reachable non-successor neighbor
with minimum computed_distance among those satisfying FC, or none", where
FC (spec section 3) is "reported_distance.scalar(...) < feasible_distance"
against the entry's current (frozen-while-active) feasible distance. -/
def TopologyEntry.get_feasible_successor (t : TopologyEntry) (K : KValues) :
    Option NeighborRecord :=
  argminBy (fun n => n.computed_distance K)
    (t.neighbors.filter (fun n =>
      n.reported_distance.reachable &&
      t.successor != some n.nid &&
      decide (n.reported_distance.scalar K < t.feasible_distance)))

/-- Action constants of dualfsm.py lines 14-19. -/
def NO_OP : Int := 1

/-- See NO_OP. -/
def INSTALL_SUCCESSOR : Int := 2

/-- See NO_OP. -/
def UNINSTALL_SUCCESSOR : Int := 3

/-- See NO_OP. -/
def MODIFY_SUCCESSOR_ROUTE : Int := 4

/-- See NO_OP. -/
def SEND_QUERY : Int := 5

/-- See NO_OP. -/
def SEND_REPLY : Int := 6

/-- Python values appearing in the lists the handlers return: None, an
action constant (int), a neighbor id, a NeighborRecord object, or a
2-tuple.  Note `list((A, B))` in Python converts the tuple to the
two-element list [A, B]; the embedding reproduces that faithfully, so a
returned list can mix ints, None and tuples exactly as the source does. -/
inductive PyVal where
  | none
  | int (n : Int)
  | nbr (nid : Nat)
  | record (r : NeighborRecord)
  | tup (a b : PyVal)
  deriving DecidableEq, Repr

/-- State-and-exception monad mirroring Python: a computation mutates the
TopologyEntry and either returns a value or raises a PyErr; mutations made
before the raise persist (as they do in Python). -/
def PyM (α : Type) : Type := TopologyEntry → Except PyErr α × TopologyEntry

instance : Monad PyM where
  pure a := fun t => (Except.ok a, t)
  bind x f := fun t =>
    match x t with
    | (Except.ok a, t2) => f a t2
    | (Except.error e, t2) => (Except.error e, t2)

/-- Raise a Python exception. -/
def PyM.raise {α : Type} (e : PyErr) : PyM α := fun t => (Except.error e, t)

/-- Read the current topology entry. -/
def PyM.get : PyM TopologyEntry := fun t => (Except.ok t, t)

/-- Embeds `t_entry.fsm.fsm.IEn()`: fire a fysom input event; on a state
with no matching row fysom raises an error and the state is unchanged. -/
def PyM.fire (e : IE) : PyM Unit := fun t =>
  match dualTransition t.state e with
  | some s2 => (Except.ok (), { t with state := s2 })
  | none => (Except.error PyErr.fysomError, t)

/-- Embeds `neighbor.waiting_for_reply.remove(t_entry.prefix)`
(dualfsm.py line 351): clears the neighbor's awaiting flag for this
destination; `list.remove` raises ValueError when the element is absent
(neighbor not awaiting, or no record for it). -/
def PyM.removeWaiting (nid : Nat) : PyM Unit := fun t =>
  let cleared := t.neighbors.map (fun n =>
    if n.nid == nid then { n with awaiting_reply := false } else n)
  match t.get_neighbor nid with
  | some r =>
    if r.awaiting_reply then (Except.ok (), { t with neighbors := cleared })
    else (Except.error (PyErr.valueError "list.remove(x): x not in list"), t)
  | none => (Except.error (PyErr.valueError "list.remove(x): x not in list"), t)

/-- Embeds the assignment
`t_entry.get_neighbor(neighbor).reported_distance = metric`
(dualfsm.py line 330). -/
def PyM.setReported (nid : Nat) (metric : Metric) : PyM Unit := fun t =>
  let updated := t.neighbors.map (fun n =>
    if n.nid == nid then { n with reported_distance := metric } else n)
  (Except.ok (), { t with neighbors := updated })

/-- StatePassive.handle_update (dualfsm.py lines 117-225).  The body's
first executable statements already reference names that dualfsm.py never
defines: on the KeyError path (neighbor not yet associated with the
prefix, lines 152-158) it evaluates `eigrp.TopologyNeighborInfo` but the
module never imports `eigrp` (NameError); otherwise line 159 evaluates
`tlv.metric` but no name `tlv` exists in the module (NameError).  Every
call therefore raises, and lines 160-225 (successor comparison, IE2/IE4
handling, the non-successor branch) are dead code; note that even there
the IE4 branch (lines 183-195) builds its actions list
[(SEND_QUERY, tlv), (UNINSTALL_SUCCESSOR, None)] without returning it,
falling through to `return list((NO_OP, None))` at line 225, and the
reachable-metric branch references the undefined names SET_METRIC and
SEND_UPDATE. -/
def StatePassive.handle_update (nid : Nat) (metric : Metric) :
    PyM (Option (List PyVal)) := do
  let t ← PyM.get
  match t.get_neighbor nid with
  | Option.none => PyM.raise (PyErr.nameError "eigrp")
  | Option.some _neighbor_entry => PyM.raise (PyErr.nameError "tlv")

/-- StatePassive.handle_reply (dualfsm.py lines 227-230):
`return list((NO_OP, None))`, i.e. the two-element list [NO_OP, None]. -/
def StatePassive.handle_reply : PyM (Option (List PyVal)) :=
  pure (Option.some [PyVal.int NO_OP, PyVal.none])

/-- StatePassive.handle_query (dualfsm.py lines 232-275).  From the
successor with a feasible successor: `return list((SEND_REPLY, fs))`
(flattened pair).  From the successor without one: fire IE3 (entry goes
Active3), then `actions.append((SEND_QUERY, tlv))` evaluates the
undefined name `tlv` (NameError) before the reply-wait flags are set;
had it completed, the function body falls off the end without returning
`actions`.  From a non-successor: fire IE1, then
`return list((SEND_REPLY, successor))` evaluates the undefined local
`successor` (NameError). -/
def StatePassive.handle_query (nid : Nat) (metric : Metric) (K : KValues) :
    PyM (Option (List PyVal)) := do
  let t ← PyM.get
  if t.successor == Option.some nid then
    match t.get_feasible_successor K with
    | Option.some fs => pure (Option.some [PyVal.int SEND_REPLY, PyVal.record fs])
    | Option.none => do
      PyM.fire IE.IE3
      PyM.raise (PyErr.nameError "tlv")
  else do
    PyM.fire IE.IE1
    PyM.raise (PyErr.nameError "successor")

/-- StatePassive.handle_link_down (dualfsm.py lines 277-300): the body is
only comments plus `pass`, so the Python function returns None. -/
def StatePassive.handle_link_down : PyM (Option (List PyVal)) :=
  pure Option.none

/-- StatePassive.handle_link_metric_change (dualfsm.py lines 302-304):
`pass`, returns None. -/
def StatePassive.handle_link_metric_change : PyM (Option (List PyVal)) :=
  pure Option.none

/-- BaseActive.handle_update (dualfsm.py lines 323-331):
`t_entry.get_neighbor(neighbor)` raises KeyError when the neighbor has no
record (and that exception propagates); otherwise IE7 is fired and the
reported distance recorded when the metric changed, and
`list((NO_OP, None))` = [NO_OP, None] is returned. -/
def BaseActive.handle_update (nid : Nat) (metric : Metric) :
    PyM (Option (List PyVal)) := do
  let t ← PyM.get
  match t.get_neighbor nid with
  | Option.none => PyM.raise PyErr.keyError
  | Option.some r =>
    if r.reported_distance != metric then do
      PyM.fire IE.IE7
      PyM.setReported nid metric
      pure (Option.some [PyVal.int NO_OP, PyVal.none])
    else
      pure (Option.some [PyVal.int NO_OP, PyVal.none])

/-- BaseActive.handle_reply (dualfsm.py lines 333-354): fire IE8, clear
the neighbor's reply-wait flag, and when all replies are in delegate to
the state's _received_last_reply; otherwise
`return list((self.NO_OP, None))` raises AttributeError, because NO_OP is
a module-level constant and no DualState class defines an attribute of
that name. -/
def BaseActive.handle_reply (nid : Nat)
    (receivedLastReply : PyM (Option (List PyVal))) :
    PyM (Option (List PyVal)) := do
  PyM.fire IE.IE8
  PyM.removeWaiting nid
  let t ← PyM.get
  if t.all_replies_received then receivedLastReply
  else PyM.raise (PyErr.attributeError "NO_OP")

/-- BaseActive.handle_query (dualfsm.py lines 356-372): from the
successor, delegate to the state's _handle_query_from_successor; else
fire IE6 and `return list((SEND_REPLY, successor))`, which evaluates the
undefined local name `successor` (NameError). -/
def BaseActive.handle_query (nid : Nat)
    (queryFromSuccessor : PyM (Option (List PyVal))) :
    PyM (Option (List PyVal)) := do
  let t ← PyM.get
  if Option.some nid == t.successor then queryFromSuccessor
  else do
    PyM.fire IE.IE6
    PyM.raise (PyErr.nameError "successor")

/-- StateActive0._received_last_reply (dualfsm.py lines 384-397).  NOTE:
the Python body does not parse (the `else:` at line 392 is followed only
by comments, an IndentationError, so dualfsm.py fails to import at all);
this definition reads the statements as written with an empty else
branch: fire IE14, then return [(INSTALL_SUCCESSOR, fs.neighbor)] when a
feasible successor exists and the empty list otherwise.  K stands for the
injected K-values accessor the spec-modelled get_feasible_successor
consumes. -/
def StateActive0.received_last_reply (K : KValues) : PyM (Option (List PyVal)) := do
  PyM.fire IE.IE14
  let t ← PyM.get
  match t.get_feasible_successor K with
  | Option.some fs => pure (Option.some [PyVal.tup (PyVal.int INSTALL_SUCCESSOR) (PyVal.nbr fs.nid)])
  | Option.none => pure (Option.some [])

/-- StateActive1._received_last_reply (dualfsm.py lines 441-446): the
body is only comments plus `pass` — no IE15 is fired, nothing is
installed, and the Python function returns None. -/
def StateActive1.received_last_reply : PyM (Option (List PyVal)) :=
  pure Option.none

/-- StateActive2._received_last_reply (dualfsm.py lines 469-475): the
body is only comments plus `pass` — neither IE16 nor IE12 is fired and
the Python function returns None. -/
def StateActive2.received_last_reply : PyM (Option (List PyVal)) :=
  pure Option.none

/-- StateActive3._received_last_reply (dualfsm.py lines 497-518): fire
IE13, append (INSTALL_SUCCESSOR, fs.neighbor) when a feasible successor
exists, then append (SEND_REPLY, t_entry.successor) and return the
list. -/
def StateActive3.received_last_reply (K : KValues) : PyM (Option (List PyVal)) := do
  PyM.fire IE.IE13
  let t ← PyM.get
  let acts := match t.get_feasible_successor K with
    | Option.some fs => [PyVal.tup (PyVal.int INSTALL_SUCCESSOR) (PyVal.nbr fs.nid)]
    | Option.none => []
  pure (Option.some (acts ++ [PyVal.tup (PyVal.int SEND_REPLY)
    (match t.successor with
     | Option.some s => PyVal.nbr s
     | Option.none => PyVal.none)]))

/-- StateActive0/1._handle_query_from_successor (dualfsm.py lines
399-405, 448-455): `pass`, returns None. -/
def StateActive01.handle_query_from_successor : PyM (Option (List PyVal)) :=
  pure Option.none

/-- StateActive2/3._handle_query_from_successor (dualfsm.py lines
477-483, 520-527): `return list((NO_OP, None))` = [NO_OP, None]. -/
def StateActive23.handle_query_from_successor : PyM (Option (List PyVal)) :=
  pure (Option.some [PyVal.int NO_OP, PyVal.none])

/-- Dispatch of `self._state.handle_update` on the current DUAL state
(DualFsm keeps `_state` in sync with the fysom state via the onX
callbacks, dualfsm.py lines 51-84). -/
def stateHandleUpdate (nid : Nat) (metric : Metric) :
    PyM (Option (List PyVal)) := do
  let t ← PyM.get
  match t.state with
  | FsmState.Passive => StatePassive.handle_update nid metric
  | _ => BaseActive.handle_update nid metric

/-- Dispatch of `self._state.handle_reply` on the current DUAL state. -/
def stateHandleReply (K : KValues) (nid : Nat) : PyM (Option (List PyVal)) := do
  let t ← PyM.get
  match t.state with
  | FsmState.Passive => StatePassive.handle_reply
  | FsmState.Active0 => BaseActive.handle_reply nid (StateActive0.received_last_reply K)
  | FsmState.Active1 => BaseActive.handle_reply nid StateActive1.received_last_reply
  | FsmState.Active2 => BaseActive.handle_reply nid StateActive2.received_last_reply
  | FsmState.Active3 => BaseActive.handle_reply nid (StateActive3.received_last_reply K)

/-- Dispatch of `self._state.handle_query` on the current DUAL state. -/
def stateHandleQuery (nid : Nat) (metric : Metric) (K : KValues) :
    PyM (Option (List PyVal)) := do
  let t ← PyM.get
  match t.state with
  | FsmState.Passive => StatePassive.handle_query nid metric K
  | FsmState.Active0 => BaseActive.handle_query nid StateActive01.handle_query_from_successor
  | FsmState.Active1 => BaseActive.handle_query nid StateActive01.handle_query_from_successor
  | FsmState.Active2 => BaseActive.handle_query nid StateActive23.handle_query_from_successor
  | FsmState.Active3 => BaseActive.handle_query nid StateActive23.handle_query_from_successor

/-- DualFsm.handle_update (dualfsm.py lines 86-91): returns the state
handler's result. -/
def DualFsm.handle_update (nid : Nat) (metric : Metric) :
    PyM (Option (List PyVal)) :=
  stateHandleUpdate nid metric

/-- DualFsm.handle_reply (dualfsm.py lines 93-96): calls the state
handler but has no return statement, so the Python method discards the
handler's result and returns None. -/
def DualFsm.handle_reply (K : KValues) (nid : Nat) : PyM (Option (List PyVal)) := do
  let _ ← stateHandleReply K nid
  pure Option.none

/-- DualFsm.handle_query (dualfsm.py lines 98-103): calls the state
handler but has no return statement, so the Python method discards the
handler's result and returns None. -/
def DualFsm.handle_query (nid : Nat) (metric : Metric) (K : KValues) :
    PyM (Option (List PyVal)) := do
  let _ ← stateHandleQuery nid metric K
  pure Option.none

/-- Run a PyM computation on an initial topology entry, giving the
result (value or raised error) and the final entry. -/
def PyM.run {α : Type} (m : PyM α) (t : TopologyEntry) :
    Except PyErr α × TopologyEntry := m t

/-- The K-value validation of EIGRP.__init__ (src/eigrp.py lines 90-101),
for list inputs (the shape the claim quantifies over): `if not kvalues or
len(kvalues) != 6` rejects an empty or wrongly sized list, then every
element must lie between 0 and 255.  The "At least one kvalue must be
non-zero" check (lines 99-100) is unreachable dead code: it is indented
inside the `except TypeError` clause AFTER the unconditional
`raise(TypeError(...))`, so no all-zero rejection ever runs. -/
def EIGRP.validate_kvalues (kvalues : List Int) : Except PyErr Unit :=
  if kvalues.isEmpty || kvalues.length != 6 then
    Except.error (PyErr.valueError "Exactly 6 K-values must be present.")
  else if kvalues.any (fun k => !(decide (0 ≤ k) && decide (k ≤ 255))) then
    Except.error (PyErr.valueError "Each kvalue must be between 0 and 255.")
  else Except.ok ()

/-- EIGRPFieldParam.pack (src/eigrp.py lines 363-367): struct.pack with
format ">BBHBBBBBBH" (BASE_FORMAT + FORMAT under the leading '>') — fully
big-endian, so _len and holdtime are written high byte first.
proto = PROTO_GENERIC = 0, _type = TYPE = 1,
_len = FORMATLEN + BASE_FORMATLEN = 8 + 4 = 12.  Bytes are Nat values;
struct.pack itself would reject k >= 256 or holdtime >= 65536. -/
def EIGRPFieldParam.pack (k1 k2 k3 k4 k5 k6 holdtime : Nat) : List Nat :=
  [0, 1, 0, 12, k1, k2, k3, k4, k5, k6, holdtime / 256, holdtime % 256]

/-- EIGRPFieldParam.unpack (src/eigrp.py lines 369-370): struct.unpack
with format "BBBBBBH" — NO byte-order prefix, hence native byte order and
alignment for the trailing H (the six leading B's leave it 2-aligned, so
the size is exactly 8).  This embedding models the ubiquitous
little-endian host (x86, ARM), where the two holdtime bytes are read low
byte first.  struct.unpack raises unless the buffer is exactly 8 bytes
(modelled as none). -/
def EIGRPFieldParam.unpack (raw : List Nat) :
    Option (Nat × Nat × Nat × Nat × Nat × Nat × Nat) :=
  match raw with
  | [a, b, c, d, e, f, g, h] => some (a, b, c, d, e, f, g + 256 * h)
  | _ => none

/-- EIGRPFieldFactory.build (src/eigrp.py lines 275-297), the Param
branch: unpack the base TLV header ">BBH" from the first 4 bytes,
dispatch on _type; for EIGRPFieldParam.TYPE = 1 construct
EIGRPFieldParam(raw=raw[4:]), whose __init__ stores the 7-tuple returned
by unpack on the remainder.  Other TLV types and malformed input are not
needed by the claims and yield none. -/
def EIGRPFieldFactory.build (raw : List Nat) :
    Option (Nat × Nat × Nat × Nat × Nat × Nat × Nat) :=
  match raw with
  | _proto :: ty :: _len1 :: _len2 :: rest =>
    if ty == 1 then EIGRPFieldParam.unpack rest else none
  | _ => none

/-! Concrete fixtures used by the evaluation theorems below.  With
`Kfix` (k1 = 1, all other weights 0) the scalar distance of a metric is
simply its bandwidth field. -/

/-- K-values k1 = 1, k2..k6 = 0: scalar = bandwidth. -/
def Kfix : KValues := ⟨1, 0, 0, 0, 0, 0⟩

/-- A reachable metric of scalar distance 5 under Kfix. -/
def m5 : Metric := ⟨5, 10, 0, 0, 0, 0⟩

/-- A reachable metric of scalar distance 50 under Kfix. -/
def m50 : Metric := ⟨50, 10, 0, 0, 0, 0⟩

/-- An unreachable metric (delay carries the infinite sentinel). -/
def mInf : Metric := ⟨50, DELAY_INF, 0, 0, 0, 0⟩

/-- A reachable non-successor neighbor whose reported distance 5 beats
the feasible distance 10 of tFS: a feasible successor. -/
def nFS : NeighborRecord := ⟨2, m5, false⟩

/-- Passive entry with feasible distance 10, no successor, one feasible
neighbor nFS. -/
def tFS : TopologyEntry := ⟨[nFS], 10, Option.none, FsmState.Passive⟩

/-- Passive entry, successor neighbor 1 materialized, feasible distance
10. -/
def tPassive : TopologyEntry := ⟨[⟨1, m5, false⟩], 10, Option.some 1, FsmState.Passive⟩

/-- Active0 entry with only neighbor 1 materialized. -/
def tActive0 : TopologyEntry := ⟨[⟨1, m5, false⟩], 10, Option.some 1, FsmState.Active0⟩

/-- Passive entry whose successor 1 became unreachable and whose other
neighbor 2 (distance 50 >= feasible distance 10) offers no feasible
successor: the IE3/IE4 trigger configuration. -/
def tQuery : TopologyEntry :=
  ⟨[⟨1, mInf, false⟩, ⟨2, m50, false⟩], 10, Option.some 1, FsmState.Passive⟩

/-- Active2 entry in a diffusing computation still waiting on neighbors
1 and 2. -/
def tActive2 : TopologyEntry :=
  ⟨[⟨1, m5, true⟩, ⟨2, m50, true⟩], 10, Option.none, FsmState.Active2⟩

/-- Scenario B of the spec: Active1, frozen feasible distance 10, sole
neighbor 2 with computed distance 50, owing the last reply. -/
def tScenB : TopologyEntry :=
  ⟨[⟨2, m50, true⟩], 10, Option.none, FsmState.Active1⟩

/-! Theorems.  One theorem per claim of the specification, preceded by
helper lemmas. -/

theorem argminBy_mem {f : NeighborRecord → Nat} :
    ∀ {l : List NeighborRecord} {n : NeighborRecord},
      argminBy f l = some n → n ∈ l
  | [], _, h => by simp [argminBy] at h
  | m :: rest, n, h => by
    unfold argminBy at h
    cases hr : argminBy f rest with
    | none => rw [hr] at h; cases h; exact List.mem_cons_self _ _
    | some b =>
      rw [hr] at h
      by_cases hle : f m ≤ f b
      · simp [hle] at h; subst h; exact List.mem_cons_self _ _
      · simp [hle] at h; subst h
        exact List.mem_cons_of_mem _ (argminBy_mem hr)

/-- C1: any neighbor returned by get_feasible_successor() satisfies the
Feasibility Condition reported_distance.scalar(K) < feasible_distance,
where feasible_distance is the entry's current (frozen-while-active)
feasible distance.  Proved for EVERY TopologyEntry state, hence in
particular for every state reachable through the public handler API
(handle_update, handle_query, handle_reply, handle_link_down,
handle_link_metric_change). -/
theorem get_feasible_successor_satisfies_FC (K : KValues) (t : TopologyEntry)
    (n : NeighborRecord) (h : t.get_feasible_successor K = some n) :
    n.reported_distance.scalar K < t.feasible_distance := by
  have hmem := argminBy_mem h
  have hfilter := List.mem_filter.mp hmem
  have hp := hfilter.2
  simp only [Bool.and_eq_true, decide_eq_true_eq] at hp
  exact hp.2

/-- Witness for C1: on the concrete entry tFS, get_feasible_successor
returns neighbor nFS and its reported distance 5 is below the feasible
distance 10. -/
theorem get_feasible_successor_satisfies_FC_witness :
    tFS.get_feasible_successor Kfix = some nFS ∧
    nFS.reported_distance.scalar Kfix < tFS.feasible_distance :=
  ⟨by decide, get_feasible_successor_satisfies_FC Kfix tFS nFS (by decide)⟩

/-- C2 (code evaluated at the failing input): the entry tActive2 is
Active2 owing replies to neighbors 1 and 2; delivering handle_reply for
that whole snapshot leaves the entry in Active2, not Passive —
StateActive2._received_last_reply is a `pass` stub that never fires
IE16/IE12 — and the first delivery even raises AttributeError at
`list((self.NO_OP, None))`.  The reply_wait_set does end up empty. -/
theorem active2_after_all_replies_not_passive :
    tActive2.reply_wait_set = [1, 2] ∧
    (PyM.run (DualFsm.handle_reply Kfix 1) tActive2).1 =
      Except.error (PyErr.attributeError "NO_OP") ∧
    (PyM.run (DualFsm.handle_reply Kfix 2)
      (PyM.run (DualFsm.handle_reply Kfix 1) tActive2).2).2.state =
      FsmState.Active2 ∧
    (PyM.run (DualFsm.handle_reply Kfix 2)
      (PyM.run (DualFsm.handle_reply Kfix 1) tActive2).2).2.reply_wait_set = [] :=
  ⟨rfl, rfl, rfl, rfl⟩

/-- C4 (code evaluated at the failing input): on tQuery (Passive, no
feasible successor) a query from the successor fires IE3 — the entry
goes Active3 — but then the handler raises NameError evaluating the
undefined name `tlv`, so no action list containing SEND_QUERY and
UNINSTALL_SUCCESSOR is ever returned, the successor is NOT reset to
NO_SUCCESSOR, and no neighbor is added to the reply-wait set.  (The
parallel IE4 path in handle_update also references `tlv` and, as written,
would discard its actions list for lack of a return.) -/
theorem enter_active_discards_required_effects :
    (PyM.run (DualFsm.handle_query 1 m50 Kfix) tQuery).1 =
      Except.error (PyErr.nameError "tlv") ∧
    (PyM.run (DualFsm.handle_query 1 m50 Kfix) tQuery).2.state =
      FsmState.Active3 ∧
    (PyM.run (DualFsm.handle_query 1 m50 Kfix) tQuery).2.successor =
      Option.some 1 ∧
    (PyM.run (DualFsm.handle_query 1 m50 Kfix) tQuery).2.reply_wait_set = [] :=
  ⟨rfl, rfl, rfl, rfl⟩

/-- C5 (code evaluated at the failing input, Scenario B): in tScenB
(Active1, feasible distance 10 frozen, sole neighbor 2 with computed
distance 50 owing the last reply) handle_reply(2) runs
StateActive1._received_last_reply, a `pass` stub: the state handler
returns None, the entry stays Active1, no successor is installed and the
feasible distance is not recomputed to 50. -/
theorem scenarioB_completion_rule_not_applied :
    (PyM.run (stateHandleReply Kfix 2) tScenB).1 = Except.ok Option.none ∧
    (PyM.run (stateHandleReply Kfix 2) tScenB).2.state = FsmState.Active1 ∧
    (PyM.run (stateHandleReply Kfix 2) tScenB).2.successor = Option.none ∧
    (PyM.run (stateHandleReply Kfix 2) tScenB).2.feasible_distance = 10 :=
  ⟨rfl, rfl, rfl, rfl⟩

/-- C6 (code evaluated at the failing input): with neighbor 1 fully
materialized in tPassive (normal operation), handle_update raises
NameError at `tlv.metric` instead of returning [NO_OP], and a query from
a non-successor raises NameError at the undefined local `successor`
instead of sending a reply. -/
theorem normal_operation_handlers_raise :
    (PyM.run (DualFsm.handle_update 1 m5) tPassive).1 =
      Except.error (PyErr.nameError "tlv") ∧
    (PyM.run (DualFsm.handle_query 2 m50 Kfix) tPassive).1 =
      Except.error (PyErr.nameError "successor") :=
  ⟨rfl, rfl⟩

/-- C7 (code evaluated at the failing input): DualFsm.handle_reply (the
public handler) has no return statement, so it yields Python None rather
than a non-empty action list; and the Passive state handler it discards
had itself produced `list((NO_OP, None))` = [NO_OP, None], not
[(NO_OP, None)] = [NO_OP] as the one-record no-effect list. -/
theorem handle_reply_returns_no_list :
    (PyM.run (DualFsm.handle_reply Kfix 1) tPassive).1 =
      Except.ok Option.none ∧
    (PyM.run (stateHandleReply Kfix 1) tPassive).1 =
      Except.ok (Option.some [PyVal.int NO_OP, PyVal.none]) :=
  ⟨rfl, rfl⟩

/-- C8 (code evaluated at the failing input): the all-zero K-value list
of length six passes EIGRP.__init__'s validation, because the
"At least one kvalue must be non-zero" check is dead code inside the
except clause; the claim requires construction to fail here. -/
theorem allzero_kvalues_pass_validation :
    EIGRP.validate_kvalues [0, 0, 0, 0, 0, 0] = Except.ok () := rfl

/-- C9 (code evaluated at the failing input): in Passive, handle_update
for a neighbor with no record does NOT create-and-continue — it raises
NameError evaluating `eigrp.TopologyNeighborInfo` (dualfsm.py never
imports eigrp); in an Active state the same call raises KeyError from
get_neighbor, which is the half of the claim the code does satisfy. -/
theorem unknown_neighbor_update_raises :
    (PyM.run (DualFsm.handle_update 9 m5) tPassive).1 =
      Except.error (PyErr.nameError "eigrp") ∧
    (PyM.run (DualFsm.handle_update 9 m5) tActive0).1 =
      Except.error PyErr.keyError :=
  ⟨rfl, rfl⟩

/-- C10 (code evaluated at the failing input): packing k-values
1,74,1,0,0,0 with holdtime 15 and re-parsing through the factory returns
the same k-values but holdtime 3840 = 15 * 256: pack writes the 16-bit
holdtime big-endian (">...H") while unpack reads it in native
little-endian byte order ("BBBBBBH" without '>'). -/
theorem param_pack_build_swaps_holdtime :
    EIGRPFieldFactory.build (EIGRPFieldParam.pack 1 74 1 0 0 0 15) =
      some (1, 74, 1, 0, 0, 0, 3840) ∧ (3840 : Nat) ≠ 15 :=
  ⟨rfl, by decide⟩

/-- C3: the DUAL machine starts in Passive, and each input event moves it
exactly as the canonical transition table prescribes (IE1/IE2 keep
Passive, IE3 Passive to Active3, IE4 Passive to Active1, IE5 Active0 to
Active2, IE6-IE8 self-loops on each Active state, IE9 Active1 to Active0,
IE10 Active3 to Active2, IE11 Active0 to Active1, IE12 Active2 to
Active3, IE13-IE16 the four returns to Passive); no other state
transitions exist. -/
theorem dual_transition_table_matches_claim :
    DualFsm.initial = FsmState.Passive ∧
    ∀ s e, dualTransition s e = claimedTransition s e :=
  ⟨rfl, fun s e => by cases s <;> cases e <;> rfl⟩

end PyEigrp
